import Mathlib

/-!
# Query service gRPC server: lifecycle controller and RPC facade

A shallow embedding of `internal/distributed/queryservice/service.go`.

The Go code is effectful: it calls the coordination engine (`qs.QueryService`), the
gRPC runtime, the `net` and `context` packages and the logger.  The embedding threads an
explicit `World` through every function.  The world holds the engine's state and a
trace of the effects performed so far, in program order.  The engine, whose code lives
in another package, is a parameter (`Engine`): each of its operations is a function of
the receiver pointer, the arguments and the engine state.

Go pointers are `Option` values (`none` is `nil`), and a Go `error` result is an
`Option` of the error type (`none` is the `nil` error).
-/

namespace grpcqueryservice

/-! ## Declarations the source file uses but does not contain -/

/-- Modelled from the spec: the enum `commonpb.ErrorCode` is declared outside the source
tree.  The source names `ErrorCode_SUCCESS` (the success status) and
`ErrorCode_UNEXPECTED_ERROR` (the generic "unexpected error" kind); every other code that
an engine may put in a status is `other`. -/
inductive ErrorCode where
  | SUCCESS
  | UNEXPECTED_ERROR
  | other (code : Nat)
  deriving DecidableEq, Repr

/-- Modelled from the spec: the message `commonpb.Status` is declared outside the source
tree.  The source sets its two fields `ErrorCode` and `Reason`. -/
structure Status where
  ErrorCode : grpcqueryservice.ErrorCode
  Reason : String
  deriving DecidableEq, Repr

/-- Modelled from the spec: the message `milvuspb.StringResponse` is declared outside the
source tree.  A response envelope with a status and a string value; the source sets its
fields `Status` (a pointer) and `Value`. -/
structure StringResponse where
  Status : Option grpcqueryservice.Status
  Value : String
  deriving DecidableEq, Repr

/-- A Go `context.Context`: either one supplied by the caller, or the child derived from a
parent by `context.WithCancel`, identified by the number of its cancellable scope. -/
inductive Context where
  | base (id : Nat)
  | withCancel (parent : Context) (scope : Nat)
  deriving DecidableEq, Repr

/-- A Go `context.CancelFunc`: calling it cancels the scope it was created for. -/
structure CancelFunc where
  scope : Nat
  deriving DecidableEq, Repr

/-- The message `commonpb.Empty`, which has no fields. -/
abbrev Empty := Unit

/-- The types that `service.go` imports and only passes around.  Each field is the
pointee (or interface) type; pointers to it are `Option` values. -/
structure Decls where
  /-- The Go `error` interface. -/
  error : Type
  /-- The method `Error()` of an error: its description. -/
  Error : error → String
  /-- The interface `msgstream.Factory`. -/
  Factory : Type
  /-- The engine object `qs.QueryService`. -/
  QueryService : Type
  /-- The interface `net.Listener`. -/
  Listener : Type
  /-- The fields of `internalpb2.ComponentStates` other than `Status`. -/
  States : Type
  /-- The zero value of those fields, as left by a composite literal that sets only `Status`. -/
  noStates : States
  RegisterNodeRequest : Type
  RegisterNodeResponse : Type
  ShowCollectionRequest : Type
  ShowCollectionResponse : Type
  LoadCollectionRequest : Type
  ReleaseCollectionRequest : Type
  ShowPartitionRequest : Type
  ShowPartitionResponse : Type
  PartitionStatesRequest : Type
  PartitionStatesResponse : Type
  LoadPartitionRequest : Type
  ReleasePartitionRequest : Type
  CreateQueryChannelResponse : Type
  SegmentInfoRequest : Type
  SegmentInfoResponse : Type

/-- Modelled from the spec: the message `internalpb2.ComponentStates` is declared outside
the source tree.  A response envelope carrying a status and the component states; the
source sets only its field `Status`, the remaining fields are `States`. -/
structure ComponentStates (P : Decls) where
  Status : Option grpcqueryservice.Status
  States : P.States

/-- The coordination engine, package `qs`, as seen from `service.go`.  The first argument of
every method is the receiver `s.queryService`; `σ` is the engine's state.  The engine's
`Start` has the error-returning signature of `Init` and `Stop`; the call site in
`Server.Start` uses it as a statement and drops whatever it returns. -/
structure Engine (P : Decls) (σ : Type) where
  NewQueryService : Context → P.Factory → σ → (Option P.QueryService × Option P.error) × σ
  /-- The configuration value `qs.Params.Port`. -/
  ParamsPort : σ → Int
  Init : Option P.QueryService → σ → Option P.error × σ
  Start : Option P.QueryService → σ → Option P.error × σ
  Stop : Option P.QueryService → σ → Option P.error × σ
  GetComponentStates : Option P.QueryService → σ →
    (Option (ComponentStates P) × Option P.error) × σ
  GetTimeTickChannel : Option P.QueryService → σ → (String × Option P.error) × σ
  GetStatisticsChannel : Option P.QueryService → σ → (String × Option P.error) × σ
  RegisterNode : Option P.QueryService → Option P.RegisterNodeRequest → σ →
    (Option P.RegisterNodeResponse × Option P.error) × σ
  ShowCollections : Option P.QueryService → Option P.ShowCollectionRequest → σ →
    (Option P.ShowCollectionResponse × Option P.error) × σ
  LoadCollection : Option P.QueryService → Option P.LoadCollectionRequest → σ →
    (Option Status × Option P.error) × σ
  ReleaseCollection : Option P.QueryService → Option P.ReleaseCollectionRequest → σ →
    (Option Status × Option P.error) × σ
  ShowPartitions : Option P.QueryService → Option P.ShowPartitionRequest → σ →
    (Option P.ShowPartitionResponse × Option P.error) × σ
  GetPartitionStates : Option P.QueryService → Option P.PartitionStatesRequest → σ →
    (Option P.PartitionStatesResponse × Option P.error) × σ
  LoadPartitions : Option P.QueryService → Option P.LoadPartitionRequest → σ →
    (Option Status × Option P.error) × σ
  ReleasePartitions : Option P.QueryService → Option P.ReleasePartitionRequest → σ →
    (Option Status × Option P.error) × σ
  CreateQueryChannel : Option P.QueryService → σ →
    (Option P.CreateQueryChannelResponse × Option P.error) × σ
  GetSegmentInfo : Option P.QueryService → Option P.SegmentInfoRequest → σ →
    (Option P.SegmentInfoResponse × Option P.error) × σ

/-! ## Effects -/

/-- One call into the engine, with the arguments it was given. -/
inductive Call (P : Decls) where
  | NewQueryService (ctx : Context) (factory : P.Factory)
  | Init
  | Start
  | Stop
  | GetComponentStates
  | GetTimeTickChannel
  | GetStatisticsChannel
  | RegisterNode (req : Option P.RegisterNodeRequest)
  | ShowCollections (req : Option P.ShowCollectionRequest)
  | LoadCollection (req : Option P.LoadCollectionRequest)
  | ReleaseCollection (req : Option P.ReleaseCollectionRequest)
  | ShowPartitions (req : Option P.ShowPartitionRequest)
  | GetPartitionStates (req : Option P.PartitionStatesRequest)
  | LoadPartitions (req : Option P.LoadPartitionRequest)
  | ReleasePartitions (req : Option P.ReleasePartitionRequest)
  | CreateQueryChannel
  | GetSegmentInfo (req : Option P.SegmentInfoRequest)

/-- One effect of the server on its surroundings. -/
inductive Event (P : Decls) where
  /-- A line printed by `log.Println`. -/
  | log (line : String)
  /-- The call `context.WithCancel(parent)`, which opened the scope `scope`. -/
  | withCancel (parent : Context) (scope : Nat)
  /-- A call of the cancel function of `scope`. -/
  | cancel (scope : Nat)
  /-- A call into the engine. -/
  | engine (c : Call P)
  /-- The call `grpc.NewServer()`, which created transport server number `srv`. -/
  | newGrpcServer (srv : Nat)
  /-- The call `querypb.RegisterQueryServiceServer(srv, s)`. -/
  | registerQueryServiceServer (srv : Nat)
  /-- The call `net.Listen(network, address)`. -/
  | listen (network : String) (address : String)
  /-- The statement `go func() ...` that launches `srv.Serve(lis)`. -/
  | goServe (srv : Nat) (lis : P.Listener)
  /-- The call `srv.GracefulStop()`. -/
  | gracefulStop (srv : Nat)

/-- The surroundings of the server: the engine's state, the effects performed so far (oldest
first), and the numbers of the next scope and of the next transport server to be created. -/
structure World (P : Decls) (σ : Type) where
  engine : σ
  trace : List (Event P)
  nextScope : Nat
  nextServer : Nat

/-- Perform one effect. -/
def emit {P : Decls} {σ : Type} (e : Event P) (w : World P σ) : World P σ :=
  { w with trace := w.trace ++ [e] }

/-- Perform one call into the engine: record it, run the engine's operation on the engine's
state, and hand back what the engine returned. -/
def callEngine {P : Decls} {σ α : Type} (c : Call P) (f : σ → α × σ) (w : World P σ) :
    α × World P σ :=
  ((f w.engine).1, { w with engine := (f w.engine).2, trace := w.trace ++ [Event.engine c] })

/-- The library function `context.WithCancel`: a child context with a fresh scope, and the
function that cancels it. -/
def WithCancel {P : Decls} {σ : Type} (ctx : Context) (w : World P σ) :
    (Context × CancelFunc) × World P σ :=
  ((Context.withCancel ctx w.nextScope, ⟨w.nextScope⟩),
    { w with trace := w.trace ++ [Event.withCancel ctx w.nextScope],
             nextScope := w.nextScope + 1 })

/-- Calling a cancel function. -/
def CancelFunc.call {P : Decls} {σ : Type} (c : CancelFunc) (w : World P σ) : World P σ :=
  emit (Event.cancel c.scope) w

/-- The library function `grpc.NewServer`: a fresh transport server. -/
def grpcNewServer {P : Decls} {σ : Type} (w : World P σ) : Nat × World P σ :=
  (w.nextServer,
    { w with trace := w.trace ++ [Event.newGrpcServer w.nextServer],
             nextServer := w.nextServer + 1 })

/-- The library function `strconv.Itoa`: the decimal text of an integer. -/
def Itoa (i : Int) : String := toString i

/-! ## The server -/

/-- The struct `Server`.  The transport server `grpcServer` is a pointer, `nil` until `Start`
creates it.  The mutex `grpcErrMux` has no state of its own here: the one place where
another goroutine may write `grpcError` is a scheduling choice of `StartEnv`. -/
structure Server (P : Decls) where
  grpcServer : Option Nat
  grpcError : Option P.error
  loopCtx : Context
  loopCancel : CancelFunc
  queryService : Option P.QueryService
  msFactory : P.Factory

/-- The function `NewServer`. -/
def NewServer {P : Decls} {σ : Type} (E : Engine P σ) (ctx : Context) (factory : P.Factory)
    (w : World P σ) : (Option (Server P) × Option P.error) × World P σ :=
  let c := WithCancel ctx w
  let ctx1 := c.1.1
  let cancel := c.1.2
  let r := callEngine (Call.NewQueryService ctx1 factory) (E.NewQueryService ctx1 factory) c.2
  let service := r.1.1
  match r.1.2 with
  | some err => ((none, some err), cancel.call r.2)
  | none =>
    ((some { grpcServer := none, grpcError := none, loopCtx := ctx1, loopCancel := cancel,
             queryService := service, msFactory := factory }, none), r.2)

/-- The method `Server.Init`. -/
def Server.Init {P : Decls} {σ : Type} (E : Engine P σ) (s : Server P) (w : World P σ) :
    Option P.error × World P σ :=
  let w1 := emit (Event.log "query service init") w
  let r := callEngine Call.Init (E.Init s.queryService) w1
  match r.1 with
  | some err => (some err, r.2)
  | none => (none, r.2)

/-- What the surroundings decide during one `Start`: the outcome of `net.Listen` for each
network and address, and how far the serve goroutine got before `Start` reads `grpcError`:
`none` when it has not stored anything by then, `some r` when `Serve` had already returned
`r` and the goroutine had finished. -/
structure StartEnv (P : Decls) where
  Listen : String → String → P.Listener × Option P.error
  served : Option (Option P.error)

/-- The body of the goroutine launched by `Start`, from the moment `Serve` returned `r`:
a non-nil error is stored in `grpcError`. -/
def serveGoroutine {P : Decls} (r : Option P.error) (s : Server P) : Server P :=
  match r with
  | some err => { s with grpcError := some err }
  | none => s

/-- The handle at the moment `Start` takes the lock to read `grpcError`: the goroutine has
run its body if the surroundings scheduled it that early, and has not touched the handle
otherwise. -/
def scheduled {P : Decls} (env : StartEnv P) (s : Server P) : Server P :=
  match env.served with
  | some r => serveGoroutine r s
  | none => s

/-- The method `Server.Start`.  Returns the error, the handle as `Start` leaves it and the
world.  A goroutine that finishes after the read of `grpcError` is a later
`serveGoroutine` step of the surroundings, outside `Start`. -/
def Server.Start {P : Decls} {σ : Type} (E : Engine P σ) (env : StartEnv P) (s : Server P)
    (w : World P σ) : Option P.error × Server P × World P σ :=
  let w1 := emit (Event.log "start query service ...") w
  let g := grpcNewServer w1
  let s1 := { s with grpcServer := some g.1 }
  let w2 := emit (Event.registerQueryServiceServer g.1) g.2
  let w3 := emit (Event.log "Starting start query service Server") w2
  let address := ":" ++ Itoa (E.ParamsPort w3.engine)
  let l := env.Listen "tcp" address
  let w4 := emit (Event.listen "tcp" address) w3
  match l.2 with
  | some err => (some err, s1, w4)
  | none =>
    let w5 := emit (Event.goServe g.1 l.1) w4
    let s2 := scheduled env s1
    match s2.grpcError with
    | some err => (some err, s2, w5)
    | none =>
      let r := callEngine Call.Start (E.Start s2.queryService) w5
      (none, s2, r.2)

/-- The method `Server.Stop`. -/
def Server.Stop {P : Decls} {σ : Type} (E : Engine P σ) (s : Server P) (w : World P σ) :
    Option P.error × World P σ :=
  let r := callEngine Call.Stop (E.Stop s.queryService) w
  let w1 := s.loopCancel.call r.2
  let w2 := match s.grpcServer with
    | some srv => emit (Event.gracefulStop srv) w1
    | none => w1
  (r.1, w2)

/-! ## The RPC facade -/

/-- The method `Server.GetComponentStates`. -/
def Server.GetComponentStates {P : Decls} {σ : Type} (E : Engine P σ) (s : Server P)
    (_ctx : Context) (_req : Option Empty) (w : World P σ) :
    (Option (ComponentStates P) × Option P.error) × World P σ :=
  let r := callEngine Call.GetComponentStates (E.GetComponentStates s.queryService) w
  let componentStates := r.1.1
  match r.1.2 with
  | some err =>
    ((some { Status := some { ErrorCode := ErrorCode.UNEXPECTED_ERROR, Reason := P.Error err },
             States := P.noStates }, some err), r.2)
  | none => ((componentStates, none), r.2)

/-- The method `Server.GetTimeTickChannel`. -/
def Server.GetTimeTickChannel {P : Decls} {σ : Type} (E : Engine P σ) (s : Server P)
    (_ctx : Context) (_req : Option Empty) (w : World P σ) :
    (Option StringResponse × Option P.error) × World P σ :=
  let r := callEngine Call.GetTimeTickChannel (E.GetTimeTickChannel s.queryService) w
  let channel := r.1.1
  match r.1.2 with
  | some err =>
    ((some { Status := some { ErrorCode := ErrorCode.UNEXPECTED_ERROR, Reason := P.Error err },
             Value := "" }, some err), r.2)
  | none =>
    ((some { Status := some { ErrorCode := ErrorCode.SUCCESS, Reason := "" },
             Value := channel }, none), r.2)

/-- The method `Server.GetStatisticsChannel`. -/
def Server.GetStatisticsChannel {P : Decls} {σ : Type} (E : Engine P σ) (s : Server P)
    (_ctx : Context) (_req : Option Empty) (w : World P σ) :
    (Option StringResponse × Option P.error) × World P σ :=
  let r := callEngine Call.GetStatisticsChannel (E.GetStatisticsChannel s.queryService) w
  let statisticsChannel := r.1.1
  match r.1.2 with
  | some err =>
    ((some { Status := some { ErrorCode := ErrorCode.UNEXPECTED_ERROR, Reason := P.Error err },
             Value := "" }, some err), r.2)
  | none =>
    ((some { Status := some { ErrorCode := ErrorCode.SUCCESS, Reason := "" },
             Value := statisticsChannel }, none), r.2)

/-- The method `Server.RegisterNode`. -/
def Server.RegisterNode {P : Decls} {σ : Type} (E : Engine P σ) (s : Server P)
    (_ctx : Context) (req : Option P.RegisterNodeRequest) (w : World P σ) :
    (Option P.RegisterNodeResponse × Option P.error) × World P σ :=
  callEngine (Call.RegisterNode req) (E.RegisterNode s.queryService req) w

/-- The method `Server.ShowCollections`. -/
def Server.ShowCollections {P : Decls} {σ : Type} (E : Engine P σ) (s : Server P)
    (_ctx : Context) (req : Option P.ShowCollectionRequest) (w : World P σ) :
    (Option P.ShowCollectionResponse × Option P.error) × World P σ :=
  callEngine (Call.ShowCollections req) (E.ShowCollections s.queryService req) w

/-- The method `Server.LoadCollection`. -/
def Server.LoadCollection {P : Decls} {σ : Type} (E : Engine P σ) (s : Server P)
    (_ctx : Context) (req : Option P.LoadCollectionRequest) (w : World P σ) :
    (Option Status × Option P.error) × World P σ :=
  callEngine (Call.LoadCollection req) (E.LoadCollection s.queryService req) w

/-- The method `Server.ReleaseCollection`. -/
def Server.ReleaseCollection {P : Decls} {σ : Type} (E : Engine P σ) (s : Server P)
    (_ctx : Context) (req : Option P.ReleaseCollectionRequest) (w : World P σ) :
    (Option Status × Option P.error) × World P σ :=
  callEngine (Call.ReleaseCollection req) (E.ReleaseCollection s.queryService req) w

/-- The method `Server.ShowPartitions`. -/
def Server.ShowPartitions {P : Decls} {σ : Type} (E : Engine P σ) (s : Server P)
    (_ctx : Context) (req : Option P.ShowPartitionRequest) (w : World P σ) :
    (Option P.ShowPartitionResponse × Option P.error) × World P σ :=
  callEngine (Call.ShowPartitions req) (E.ShowPartitions s.queryService req) w

/-- The method `Server.GetPartitionStates`. -/
def Server.GetPartitionStates {P : Decls} {σ : Type} (E : Engine P σ) (s : Server P)
    (_ctx : Context) (req : Option P.PartitionStatesRequest) (w : World P σ) :
    (Option P.PartitionStatesResponse × Option P.error) × World P σ :=
  callEngine (Call.GetPartitionStates req) (E.GetPartitionStates s.queryService req) w

/-- The method `Server.LoadPartitions`. -/
def Server.LoadPartitions {P : Decls} {σ : Type} (E : Engine P σ) (s : Server P)
    (_ctx : Context) (req : Option P.LoadPartitionRequest) (w : World P σ) :
    (Option Status × Option P.error) × World P σ :=
  callEngine (Call.LoadPartitions req) (E.LoadPartitions s.queryService req) w

/-- The method `Server.ReleasePartitions`. -/
def Server.ReleasePartitions {P : Decls} {σ : Type} (E : Engine P σ) (s : Server P)
    (_ctx : Context) (req : Option P.ReleasePartitionRequest) (w : World P σ) :
    (Option Status × Option P.error) × World P σ :=
  callEngine (Call.ReleasePartitions req) (E.ReleasePartitions s.queryService req) w

/-- The method `Server.CreateQueryChannel`.  The engine's operation takes no request. -/
def Server.CreateQueryChannel {P : Decls} {σ : Type} (E : Engine P σ) (s : Server P)
    (_ctx : Context) (_req : Option Empty) (w : World P σ) :
    (Option P.CreateQueryChannelResponse × Option P.error) × World P σ :=
  callEngine Call.CreateQueryChannel (E.CreateQueryChannel s.queryService) w

/-- The method `Server.GetSegmentInfo`. -/
def Server.GetSegmentInfo {P : Decls} {σ : Type} (E : Engine P σ) (s : Server P)
    (_ctx : Context) (req : Option P.SegmentInfoRequest) (w : World P σ) :
    (Option P.SegmentInfoResponse × Option P.error) × World P σ :=
  callEngine (Call.GetSegmentInfo req) (E.GetSegmentInfo s.queryService req) w

/-! ## Vocabulary of the properties -/

/-- The effects performed after the first `n` of a trace. -/
def effectsAfter {P : Decls} (n : Nat) (trace : List (Event P)) : List (Event P) :=
  trace.drop n

/-- The effect launches the serve loop of some transport server. -/
def Event.isServe {P : Decls} : Event P → Bool
  | Event.goServe _ _ => true
  | _ => false

/-- The effect is a call of the engine's `Start`. -/
def Event.isEngineStart {P : Decls} : Event P → Bool
  | Event.engine Call.Start => true
  | _ => false

/-- The effect is a call into the engine. -/
def Event.isEngineCall {P : Decls} : Event P → Bool
  | Event.engine _ => true
  | _ => false

/-- The effect is a call of a cancel function. -/
def Event.isCancel {P : Decls} : Event P → Bool
  | Event.cancel _ => true
  | _ => false

/-- The effect is a graceful stop of some transport server. -/
def Event.isGracefulStop {P : Decls} : Event P → Bool
  | Event.gracefulStop _ => true
  | _ => false

/-- A status is a success status: it is present and its code is `SUCCESS`. -/
def isSuccess (st : Option Status) : Bool :=
  match st with
  | some x => decide (x.ErrorCode = ErrorCode.SUCCESS)
  | none => false

/-- A facade call is a pure pass-through of the engine operation `op`, recorded as the
call `c`: in every world it returns the pair that `op` returns on the engine's state, leaves
the engine in the state `op` leaves it in, and its only effect is that one call. -/
def IsPassThrough {P : Decls} {σ α : Type} (facade : World P σ → α × World P σ)
    (op : σ → α × σ) (c : Call P) : Prop :=
  ∀ w : World P σ,
    (facade w).1 = (op w.engine).1 ∧
    (facade w).2.engine = (op w.engine).2 ∧
    (facade w).2.trace = w.trace ++ [Event.engine c] ∧
    (facade w).2.nextScope = w.nextScope ∧ (facade w).2.nextServer = w.nextServer

/-- The address `Start` binds: a colon and the configured port in decimal. -/
def listenAddress {P : Decls} {σ : Type} (E : Engine P σ) (w : World P σ) : String :=
  ":" ++ Itoa (E.ParamsPort w.engine)

/-- The effects of `Start` up to and including the bind, for transport server `srv`. -/
def bindEffects {P : Decls} (srv : Nat) (address : String) : List (Event P) :=
  [Event.log "start query service ...", Event.newGrpcServer srv,
   Event.registerQueryServiceServer srv, Event.log "Starting start query service Server",
   Event.listen "tcp" address]

/-! ## Sample data -/

namespace Sample

/-- Sample instances of the imported types: errors are their descriptions, messages are
numbers or strings. -/
@[reducible]
def decls : Decls where
  error := String
  Error := fun e => e
  Factory := Unit
  QueryService := Nat
  Listener := String
  States := List String
  noStates := []
  RegisterNodeRequest := Nat
  RegisterNodeResponse := Nat
  ShowCollectionRequest := Nat
  ShowCollectionResponse := List Nat
  LoadCollectionRequest := Nat
  ReleaseCollectionRequest := Nat
  ShowPartitionRequest := Nat
  ShowPartitionResponse := List Nat
  PartitionStatesRequest := Nat
  PartitionStatesResponse := List Nat
  LoadPartitionRequest := Nat
  ReleasePartitionRequest := Nat
  CreateQueryChannelResponse := String
  SegmentInfoRequest := Nat
  SegmentInfoResponse := List Nat

/-- A healthy engine whose state counts the calls it received.  Its `LoadCollection`
reports a logical failure in the status, with no error. -/
def engine : Engine decls Nat where
  NewQueryService := fun _ _ n => ((some 7, none), n + 1)
  ParamsPort := fun _ => 19531
  Init := fun _ n => (none, n + 1)
  Start := fun _ n => (none, n + 1)
  Stop := fun _ n => (none, n + 1)
  GetComponentStates := fun _ n =>
    ((some { Status := some { ErrorCode := ErrorCode.SUCCESS, Reason := "" },
             States := ["healthy"] }, none), n + 1)
  GetTimeTickChannel := fun _ n => (("dm-0", none), n + 1)
  GetStatisticsChannel := fun _ n => (("stats-0", none), n + 1)
  RegisterNode := fun _ _ n => ((some n, none), n + 1)
  ShowCollections := fun _ _ n => ((some [n], none), n + 1)
  LoadCollection := fun _ _ n =>
    ((some { ErrorCode := ErrorCode.UNEXPECTED_ERROR, Reason := "" }, none), n + 1)
  ReleaseCollection := fun _ _ n =>
    ((some { ErrorCode := ErrorCode.SUCCESS, Reason := "" }, none), n + 1)
  ShowPartitions := fun _ _ n => ((some [n], none), n + 1)
  GetPartitionStates := fun _ _ n => ((some [n], none), n + 1)
  LoadPartitions := fun _ _ n =>
    ((some { ErrorCode := ErrorCode.SUCCESS, Reason := "" }, none), n + 1)
  ReleasePartitions := fun _ _ n =>
    ((some { ErrorCode := ErrorCode.SUCCESS, Reason := "" }, none), n + 1)
  CreateQueryChannel := fun _ n => ((some "query-0", none), n + 1)
  GetSegmentInfo := fun _ _ n => ((some [n], none), n + 1)

/-- An engine that cannot be constructed and whose value-returning calls fail. -/
def brokenEngine : Engine decls Nat :=
  { engine with
    NewQueryService := fun _ _ n => ((none, some "no etcd"), n + 1)
    GetComponentStates := fun _ n => ((none, some "engine down"), n + 1)
    GetTimeTickChannel := fun _ n => (("", some "engine down"), n + 1)
    GetStatisticsChannel := fun _ n => (("", some "engine down"), n + 1) }

/-- Component states whose own status reports a failure. -/
def abnormalStates : ComponentStates decls :=
  { Status := some { ErrorCode := ErrorCode.UNEXPECTED_ERROR, Reason := "abnormal" },
    States := ["abnormal"] }

/-- An engine that answers `GetComponentStates` with `abnormalStates` and no error. -/
def abnormalEngine : Engine decls Nat :=
  { engine with GetComponentStates := fun _ n => ((some abnormalStates, none), n + 1) }

/-- An engine whose `Start` reports an error. -/
def startFailsEngine : Engine decls Nat :=
  { engine with Start := fun _ n => (some "engine start failed", n + 1) }

/-- A world in which nothing has happened yet. -/
def world : World decls Nat :=
  { engine := 0, trace := [], nextScope := 0, nextServer := 0 }

/-- The handle that `NewServer` builds in `world` from the context `Context.base 0`. -/
def server : Server decls :=
  { grpcServer := none, grpcError := none, loopCtx := Context.withCancel (Context.base 0) 0,
    loopCancel := { scope := 0 }, queryService := some 7, msFactory := () }

/-- Surroundings in which the port is taken. -/
def portTaken : StartEnv decls :=
  { Listen := fun _ _ => ("", some "address already in use"), served := none }

/-- Surroundings in which the bind succeeds and the serve loop has stored nothing by the
time `Start` reads `grpcError`. -/
def portFree : StartEnv decls :=
  { Listen := fun _ address => (address, none), served := none }

/-- Surroundings in which the bind succeeds and the serve loop has already failed by the
time `Start` reads `grpcError`. -/
def serveFailed : StartEnv decls :=
  { Listen := fun _ address => (address, none), served := some (some "listener closed") }

end Sample

/-! ## The RPC facade: value-returning calls -/

/-- C1: for `GetTimeTickChannel` and for `GetStatisticsChannel`, when the engine call returns
the channel name `V` with no error, the facade returns no error and a non-nil response
whose status is present with code `SUCCESS` and an empty reason, and whose `Value` is
`V`. -/
theorem channel_success_envelope {P : Decls} {σ : Type} (E : Engine P σ) (s : Server P)
    (ctx : Context) (req : Option Empty) (w : World P σ) (V : String) :
    ((E.GetTimeTickChannel s.queryService w.engine).1 = (V, none) →
      (Server.GetTimeTickChannel E s ctx req w).1 =
        (some { Status := some { ErrorCode := ErrorCode.SUCCESS, Reason := "" }, Value := V },
         none)) ∧
    ((E.GetStatisticsChannel s.queryService w.engine).1 = (V, none) →
      (Server.GetStatisticsChannel E s ctx req w).1 =
        (some { Status := some { ErrorCode := ErrorCode.SUCCESS, Reason := "" }, Value := V },
         none)) := by
  constructor
  · intro h
    simp [Server.GetTimeTickChannel, callEngine, h]
  · intro h
    simp [Server.GetStatisticsChannel, callEngine, h]

/-- Witness of C1: the scenario of the specification; the sample engine returns `"dm-0"` as
time tick channel and `"stats-0"` as statistics channel, each with no error. -/
theorem channel_success_envelope_witness :
    ((Sample.engine.GetTimeTickChannel Sample.server.queryService Sample.world.engine).1
        = ("dm-0", none) ∧
      (Server.GetTimeTickChannel Sample.engine Sample.server (Context.base 1) none
          Sample.world).1 =
        (some { Status := some { ErrorCode := ErrorCode.SUCCESS, Reason := "" },
                Value := "dm-0" }, none)) ∧
    ((Sample.engine.GetStatisticsChannel Sample.server.queryService Sample.world.engine).1
        = ("stats-0", none) ∧
      (Server.GetStatisticsChannel Sample.engine Sample.server (Context.base 1) none
          Sample.world).1 =
        (some { Status := some { ErrorCode := ErrorCode.SUCCESS, Reason := "" },
                Value := "stats-0" }, none)) :=
  ⟨⟨rfl, (channel_success_envelope Sample.engine Sample.server (Context.base 1) none
      Sample.world "dm-0").1 rfl⟩,
   ⟨rfl, (channel_success_envelope Sample.engine Sample.server (Context.base 1) none
      Sample.world "stats-0").2 rfl⟩⟩

/-- C2: for `GetComponentStates`, `GetTimeTickChannel` and `GetStatisticsChannel`, when the
engine call fails with the error `e`, the facade returns a non-nil response whose status is
present with code `UNEXPECTED_ERROR` and reason `e.Error()`, and it returns the same error
`e` as its error result. -/
theorem value_call_failure_envelope {P : Decls} {σ : Type} (E : Engine P σ) (s : Server P)
    (ctx : Context) (req : Option Empty) (w : World P σ) (e : P.error) :
    ((E.GetComponentStates s.queryService w.engine).1.2 = some e →
      ∃ resp : ComponentStates P,
        (Server.GetComponentStates E s ctx req w).1 = (some resp, some e) ∧
        resp.Status = some { ErrorCode := ErrorCode.UNEXPECTED_ERROR, Reason := P.Error e }) ∧
    ((E.GetTimeTickChannel s.queryService w.engine).1.2 = some e →
      ∃ resp : StringResponse,
        (Server.GetTimeTickChannel E s ctx req w).1 = (some resp, some e) ∧
        resp.Status = some { ErrorCode := ErrorCode.UNEXPECTED_ERROR, Reason := P.Error e }) ∧
    ((E.GetStatisticsChannel s.queryService w.engine).1.2 = some e →
      ∃ resp : StringResponse,
        (Server.GetStatisticsChannel E s ctx req w).1 = (some resp, some e) ∧
        resp.Status = some { ErrorCode := ErrorCode.UNEXPECTED_ERROR, Reason := P.Error e }) := by
  refine ⟨?_, ?_, ?_⟩
  · intro h
    simp [Server.GetComponentStates, callEngine, h]
  · intro h
    simp [Server.GetTimeTickChannel, callEngine, h]
  · intro h
    simp [Server.GetStatisticsChannel, callEngine, h]

/-- Witness of C2: the broken sample engine fails the three calls with `"engine down"`. -/
theorem value_call_failure_envelope_witness :
    ((Sample.brokenEngine.GetComponentStates Sample.server.queryService
        Sample.world.engine).1.2 = some "engine down" ∧
      ∃ resp : ComponentStates Sample.decls,
        (Server.GetComponentStates Sample.brokenEngine Sample.server (Context.base 1) none
          Sample.world).1 = (some resp, some "engine down") ∧
        resp.Status =
          some { ErrorCode := ErrorCode.UNEXPECTED_ERROR, Reason := "engine down" }) ∧
    ((Sample.brokenEngine.GetTimeTickChannel Sample.server.queryService
        Sample.world.engine).1.2 = some "engine down" ∧
      ∃ resp : StringResponse,
        (Server.GetTimeTickChannel Sample.brokenEngine Sample.server (Context.base 1) none
          Sample.world).1 = (some resp, some "engine down") ∧
        resp.Status =
          some { ErrorCode := ErrorCode.UNEXPECTED_ERROR, Reason := "engine down" }) ∧
    ((Sample.brokenEngine.GetStatisticsChannel Sample.server.queryService
        Sample.world.engine).1.2 = some "engine down" ∧
      ∃ resp : StringResponse,
        (Server.GetStatisticsChannel Sample.brokenEngine Sample.server (Context.base 1) none
          Sample.world).1 = (some resp, some "engine down") ∧
        resp.Status =
          some { ErrorCode := ErrorCode.UNEXPECTED_ERROR, Reason := "engine down" }) :=
  ⟨⟨rfl, (value_call_failure_envelope Sample.brokenEngine Sample.server (Context.base 1) none
      Sample.world "engine down").1 rfl⟩,
   ⟨rfl, (value_call_failure_envelope Sample.brokenEngine Sample.server (Context.base 1) none
      Sample.world "engine down").2.1 rfl⟩,
   ⟨rfl, (value_call_failure_envelope Sample.brokenEngine Sample.server (Context.base 1) none
      Sample.world "engine down").2.2 rfl⟩⟩

/-- C3, as stated, fails: the abnormal sample engine returns component states with no
error, and the response of the facade, which is those component states, does not carry a
success status. -/
theorem componentStates_success_status_counterexample :
    ¬ (∀ V : Option (ComponentStates Sample.decls),
        (Sample.abnormalEngine.GetComponentStates Sample.server.queryService
          Sample.world.engine).1 = (V, none) →
        ∃ resp : ComponentStates Sample.decls,
          (Server.GetComponentStates Sample.abnormalEngine Sample.server (Context.base 1) none
            Sample.world).1 = (some resp, none) ∧
          isSuccess resp.Status = true) := by
  intro h
  obtain ⟨resp, hresp, hs⟩ := h _ rfl
  have h0 : (Server.GetComponentStates Sample.abnormalEngine Sample.server (Context.base 1) none
      Sample.world).1 = (some Sample.abnormalStates, none) := rfl
  rw [h0] at hresp
  have hr : Sample.abnormalStates = resp := Option.some.inj (congrArg Prod.fst hresp)
  subst hr
  exact absurd hs (by decide)

/-- C3, amended: for `GetComponentStates`, when the engine returns the component states `V`
with no error, the facade returns no error and exactly `V`, status included: it puts no
status of its own into the response, which therefore carries a success status exactly
when `V` does. -/
theorem componentStates_success_passthrough {P : Decls} {σ : Type} (E : Engine P σ)
    (s : Server P) (ctx : Context) (req : Option Empty) (w : World P σ)
    (V : Option (ComponentStates P))
    (h : (E.GetComponentStates s.queryService w.engine).1 = (V, none)) :
    (Server.GetComponentStates E s ctx req w).1 = (V, none) := by
  simp [Server.GetComponentStates, callEngine, h]

/-- Witness of C3 amended: the component states of the abnormal sample engine come back
unchanged. -/
theorem componentStates_success_passthrough_witness :
    (Sample.abnormalEngine.GetComponentStates Sample.server.queryService
        Sample.world.engine).1 = (some Sample.abnormalStates, none) ∧
    (Server.GetComponentStates Sample.abnormalEngine Sample.server (Context.base 1) none
        Sample.world).1 = (some Sample.abnormalStates, none) :=
  ⟨rfl, componentStates_success_passthrough Sample.abnormalEngine Sample.server
    (Context.base 1) none Sample.world _ rfl⟩

/-! ## The RPC facade: delegating calls -/

/-- C4: each of the ten delegating facade calls is a pure pass-through: for every request
and every context it returns exactly the (response, error) pair of the corresponding engine
operation on that request, the engine is called exactly once and nothing else happens; in
particular a status with code `UNEXPECTED_ERROR` that the engine's `LoadCollection` returns
with no error comes back unchanged with no error. -/
theorem delegating_calls_pass_through {P : Decls} {σ : Type} (E : Engine P σ) (s : Server P)
    (ctx : Context) :
    (∀ req, IsPassThrough (Server.LoadCollection E s ctx req)
      (E.LoadCollection s.queryService req) (Call.LoadCollection req)) ∧
    (∀ req, IsPassThrough (Server.ReleaseCollection E s ctx req)
      (E.ReleaseCollection s.queryService req) (Call.ReleaseCollection req)) ∧
    (∀ req, IsPassThrough (Server.LoadPartitions E s ctx req)
      (E.LoadPartitions s.queryService req) (Call.LoadPartitions req)) ∧
    (∀ req, IsPassThrough (Server.ReleasePartitions E s ctx req)
      (E.ReleasePartitions s.queryService req) (Call.ReleasePartitions req)) ∧
    (∀ req, IsPassThrough (Server.RegisterNode E s ctx req)
      (E.RegisterNode s.queryService req) (Call.RegisterNode req)) ∧
    (∀ req, IsPassThrough (Server.ShowCollections E s ctx req)
      (E.ShowCollections s.queryService req) (Call.ShowCollections req)) ∧
    (∀ req, IsPassThrough (Server.ShowPartitions E s ctx req)
      (E.ShowPartitions s.queryService req) (Call.ShowPartitions req)) ∧
    (∀ req, IsPassThrough (Server.GetPartitionStates E s ctx req)
      (E.GetPartitionStates s.queryService req) (Call.GetPartitionStates req)) ∧
    (∀ req, IsPassThrough (Server.CreateQueryChannel E s ctx req)
      (E.CreateQueryChannel s.queryService) Call.CreateQueryChannel) ∧
    (∀ req, IsPassThrough (Server.GetSegmentInfo E s ctx req)
      (E.GetSegmentInfo s.queryService req) (Call.GetSegmentInfo req)) ∧
    (∀ req w reason,
      (E.LoadCollection s.queryService req w.engine).1 =
        (some { ErrorCode := ErrorCode.UNEXPECTED_ERROR, Reason := reason }, none) →
      (Server.LoadCollection E s ctx req w).1 =
        (some { ErrorCode := ErrorCode.UNEXPECTED_ERROR, Reason := reason }, none)) := by
  refine ⟨?_, ?_, ?_, ?_, ?_, ?_, ?_, ?_, ?_, ?_, ?_⟩
  · intro req w
    exact ⟨rfl, rfl, rfl, rfl, rfl⟩
  · intro req w
    exact ⟨rfl, rfl, rfl, rfl, rfl⟩
  · intro req w
    exact ⟨rfl, rfl, rfl, rfl, rfl⟩
  · intro req w
    exact ⟨rfl, rfl, rfl, rfl, rfl⟩
  · intro req w
    exact ⟨rfl, rfl, rfl, rfl, rfl⟩
  · intro req w
    exact ⟨rfl, rfl, rfl, rfl, rfl⟩
  · intro req w
    exact ⟨rfl, rfl, rfl, rfl, rfl⟩
  · intro req w
    exact ⟨rfl, rfl, rfl, rfl, rfl⟩
  · intro req w
    exact ⟨rfl, rfl, rfl, rfl, rfl⟩
  · intro req w
    exact ⟨rfl, rfl, rfl, rfl, rfl⟩
  · intro req w reason h
    simpa [Server.LoadCollection, callEngine] using h

/-- Witness of C4: the scenario of the specification; the sample engine's `LoadCollection`
returns the status with code `UNEXPECTED_ERROR` and no error, and the facade returns that
status and no error. -/
theorem delegating_calls_pass_through_witness :
    (Sample.engine.LoadCollection Sample.server.queryService (some 5) Sample.world.engine).1 =
      (some { ErrorCode := ErrorCode.UNEXPECTED_ERROR, Reason := "" }, none) ∧
    (Server.LoadCollection Sample.engine Sample.server (Context.base 1) (some 5)
        Sample.world).1 =
      (some { ErrorCode := ErrorCode.UNEXPECTED_ERROR, Reason := "" }, none) :=
  ⟨rfl, (delegating_calls_pass_through Sample.engine Sample.server
    (Context.base 1)).2.2.2.2.2.2.2.2.2.2 (some 5) Sample.world "" rfl⟩

/-! ## The lifecycle controller -/

/-- C5: when binding the listener on the configured port fails with the error `e`, `Start`
returns exactly `e`; the effects of that `Start` end with the failed bind, so none of them
launches the serve loop and none is a call into the engine, whose state is unchanged. -/
theorem start_bind_failure {P : Decls} {σ : Type} (E : Engine P σ) (env : StartEnv P)
    (s : Server P) (w : World P σ) (e : P.error)
    (h : (env.Listen "tcp" (listenAddress E w)).2 = some e) :
    (Server.Start E env s w).1 = some e ∧
    (Server.Start E env s w).2.2.trace =
      w.trace ++ bindEffects w.nextServer (listenAddress E w) ∧
    (∀ ev ∈ effectsAfter w.trace.length (Server.Start E env s w).2.2.trace,
      ev.isServe = false ∧ ev.isEngineStart = false ∧ ev.isEngineCall = false) ∧
    (Server.Start E env s w).2.2.engine = w.engine := by
  have ht : (Server.Start E env s w).2.2.trace =
      w.trace ++ bindEffects w.nextServer (listenAddress E w) := by
    simp [listenAddress] at h
    simp [Server.Start, emit, grpcNewServer, bindEffects, listenAddress, h]
  refine ⟨?_, ht, ?_, ?_⟩
  · simp [listenAddress] at h
    simp [Server.Start, emit, grpcNewServer, h]
  · intro ev hev
    rw [ht] at hev
    simp [effectsAfter, bindEffects] at hev
    rcases hev with rfl | rfl | rfl | rfl | rfl <;> exact ⟨rfl, rfl, rfl⟩
  · simp [listenAddress] at h
    simp [Server.Start, emit, grpcNewServer, h]

/-- Witness of C5: the port is taken. -/
theorem start_bind_failure_witness :
    (Sample.portTaken.Listen "tcp" (listenAddress Sample.engine Sample.world)).2 =
      some "address already in use" ∧
    ((Server.Start Sample.engine Sample.portTaken Sample.server Sample.world).1 =
      some "address already in use" ∧
    (Server.Start Sample.engine Sample.portTaken Sample.server Sample.world).2.2.trace =
      Sample.world.trace ++
        bindEffects Sample.world.nextServer (listenAddress Sample.engine Sample.world) ∧
    (∀ ev ∈ effectsAfter Sample.world.trace.length
        (Server.Start Sample.engine Sample.portTaken Sample.server Sample.world).2.2.trace,
      ev.isServe = false ∧ ev.isEngineStart = false ∧ ev.isEngineCall = false) ∧
    (Server.Start Sample.engine Sample.portTaken Sample.server Sample.world).2.2.engine =
      Sample.world.engine) :=
  ⟨rfl, start_bind_failure Sample.engine Sample.portTaken Sample.server Sample.world
    "address already in use" rfl⟩

/-- C6: for every handle, whatever `Start` did to it before, `Stop` performs the engine's
`Stop`, then the cancellation of the handle's scope, then the graceful stop of the transport
server exactly when the handle has one, and nothing else; it returns exactly the error of
the engine's `Stop`.  On a handle without a transport server, as `NewServer` builds it,
`Stop` performs the engine's `Stop` and the cancellation. -/
theorem stop_sequence {P : Decls} {σ : Type} (E : Engine P σ) (s : Server P)
    (w : World P σ) :
    (Server.Stop E s w).1 = (E.Stop s.queryService w.engine).1 ∧
    (Server.Stop E s w).2.engine = (E.Stop s.queryService w.engine).2 ∧
    (Server.Stop E s w).2.trace =
      w.trace ++ [Event.engine Call.Stop, Event.cancel s.loopCancel.scope] ++
        (match s.grpcServer with
         | some srv => [Event.gracefulStop srv]
         | none => []) ∧
    (s.grpcServer = none →
      (Server.Stop E s w).2.trace =
        w.trace ++ [Event.engine Call.Stop, Event.cancel s.loopCancel.scope]) ∧
    (∀ (ctx : Context) (factory : P.Factory) (w0 : World P σ),
      (NewServer E ctx factory w0).1.1 = some s → s.grpcServer = none) := by
  have ht : (Server.Stop E s w).2.trace =
      w.trace ++ [Event.engine Call.Stop, Event.cancel s.loopCancel.scope] ++
        (match s.grpcServer with
         | some srv => [Event.gracefulStop srv]
         | none => []) := by
    cases hg : s.grpcServer <;> simp [Server.Stop, callEngine, CancelFunc.call, emit, hg]
  refine ⟨rfl, ?_, ht, ?_, ?_⟩
  · cases hg : s.grpcServer <;> simp [Server.Stop, callEngine, CancelFunc.call, emit, hg]
  · intro hg
    rw [ht, hg]
    simp
  · intro ctx factory w0 hs
    dsimp only [NewServer] at hs
    split at hs
    · simp at hs
    · simp at hs
      rw [← hs]

/-- Witness of C6: `Stop` on the handle that `NewServer` built, on which `Start` was never
called. -/
theorem stop_sequence_witness :
    Sample.server.grpcServer = none ∧
    (NewServer Sample.engine (Context.base 0) () Sample.world).1.1 = some Sample.server ∧
    (Server.Stop Sample.engine Sample.server Sample.world).1 = none ∧
    (Server.Stop Sample.engine Sample.server Sample.world).2.trace =
      Sample.world.trace ++ [Event.engine Call.Stop, Event.cancel 0] :=
  ⟨(stop_sequence Sample.engine Sample.server Sample.world).2.2.2.2 (Context.base 0) ()
      Sample.world rfl,
    rfl,
    (stop_sequence Sample.engine Sample.server Sample.world).1,
    (stop_sequence Sample.engine Sample.server Sample.world).2.2.2.1 rfl⟩

/-- C7: construction is atomic.  `NewServer` derives a child scope of the parent and
constructs the engine with it.  When the construction fails with the error `e`,
`NewServer` then cancels that child scope and returns no handle and `e`.  When the
construction returns the engine `service` and no error, `NewServer` returns no error and a
handle whose engine is `service` (non-nil when `service` is), whose scope is the derived
one and whose cancel function, the one of the derived scope, was not called. -/
theorem newServer_atomic {P : Decls} {σ : Type} (E : Engine P σ) (ctx : Context)
    (factory : P.Factory) (w : World P σ) :
    (∀ e : P.error,
      (E.NewQueryService (Context.withCancel ctx w.nextScope) factory w.engine).1.2 = some e →
      (NewServer E ctx factory w).1 = (none, some e) ∧
      (NewServer E ctx factory w).2.trace =
        w.trace ++ [Event.withCancel ctx w.nextScope,
          Event.engine (Call.NewQueryService (Context.withCancel ctx w.nextScope) factory),
          Event.cancel w.nextScope]) ∧
    (∀ service : Option P.QueryService,
      (E.NewQueryService (Context.withCancel ctx w.nextScope) factory w.engine).1 =
        (service, none) →
      ∃ h : Server P,
        (NewServer E ctx factory w).1 = (some h, none) ∧
        h.queryService = service ∧
        (service.isSome = true → h.queryService.isSome = true) ∧
        h.loopCtx = Context.withCancel ctx w.nextScope ∧
        h.loopCancel = { scope := w.nextScope } ∧
        (NewServer E ctx factory w).2.trace =
          w.trace ++ [Event.withCancel ctx w.nextScope,
            Event.engine (Call.NewQueryService (Context.withCancel ctx w.nextScope) factory)] ∧
        (∀ ev ∈ effectsAfter w.trace.length (NewServer E ctx factory w).2.trace,
          ev.isCancel = false)) := by
  constructor
  · intro e h
    simp [NewServer, WithCancel, callEngine, CancelFunc.call, emit, h]
  · intro service h
    have ht : (NewServer E ctx factory w).2.trace =
        w.trace ++ [Event.withCancel ctx w.nextScope,
          Event.engine (Call.NewQueryService (Context.withCancel ctx w.nextScope) factory)] := by
      simp [NewServer, WithCancel, callEngine, h]
    refine ⟨{ grpcServer := none, grpcError := none,
              loopCtx := Context.withCancel ctx w.nextScope,
              loopCancel := { scope := w.nextScope }, queryService := service,
              msFactory := factory }, ?_, rfl, fun hs => hs, rfl, rfl, ht, ?_⟩
    · simp [NewServer, WithCancel, callEngine, h]
    · intro ev hev
      rw [ht] at hev
      simp [effectsAfter] at hev
      rcases hev with rfl | rfl <;> rfl

/-- Witness of C7: the broken sample engine cannot be constructed, the healthy one can. -/
theorem newServer_atomic_witness :
    ((Sample.brokenEngine.NewQueryService (Context.withCancel (Context.base 0) 0) ()
        Sample.world.engine).1.2 = some "no etcd" ∧
      (NewServer Sample.brokenEngine (Context.base 0) () Sample.world).1 =
        (none, some "no etcd")) ∧
    ((Sample.engine.NewQueryService (Context.withCancel (Context.base 0) 0) ()
        Sample.world.engine).1 = (some 7, none) ∧
      ∃ h : Server Sample.decls,
        (NewServer Sample.engine (Context.base 0) () Sample.world).1 = (some h, none) ∧
        h.queryService = some 7) :=
  ⟨⟨rfl, ((newServer_atomic Sample.brokenEngine (Context.base 0) () Sample.world).1
      "no etcd" rfl).1⟩,
   ⟨rfl,
    match (newServer_atomic Sample.engine (Context.base 0) () Sample.world).2 (some 7) rfl with
    | ⟨h, h1, h2, _⟩ => ⟨h, h1, h2⟩⟩⟩

/-- The goroutine writes `grpcError` only: the value `Start` reads does not depend on the
transport server stored on the handle. -/
theorem scheduled_grpcError {P : Decls} (env : StartEnv P) (s : Server P) (g : Option Nat) :
    (scheduled env { s with grpcServer := g }).grpcError = (scheduled env s).grpcError := by
  unfold scheduled serveGoroutine
  cases env.served with
  | none => rfl
  | some r => cases r <;> rfl

/-- The goroutine leaves the engine reference of the handle alone. -/
theorem scheduled_queryService {P : Decls} (env : StartEnv P) (s : Server P) :
    (scheduled env s).queryService = s.queryService := by
  unfold scheduled serveGoroutine
  cases env.served with
  | none => rfl
  | some r => cases r <;> rfl

/-- C8: when the bind in `Start` succeeds, the serve loop is launched and the outcome is
decided by the value of `grpcError` read after that.  When the value is the error `e`,
`Start` returns `e` and does not call the engine's `Start`.  When it is empty, `Start`
calls the engine's `Start` once, after the launch of the serve loop, and returns no
error. -/
theorem start_after_bind {P : Decls} {σ : Type} (E : Engine P σ) (env : StartEnv P)
    (s : Server P) (w : World P σ)
    (h : (env.Listen "tcp" (listenAddress E w)).2 = none) :
    (∀ e : P.error, (scheduled env s).grpcError = some e →
      (Server.Start E env s w).1 = some e ∧
      (Server.Start E env s w).2.2.trace =
        w.trace ++ bindEffects w.nextServer (listenAddress E w) ++
          [Event.goServe w.nextServer (env.Listen "tcp" (listenAddress E w)).1] ∧
      (∀ ev ∈ effectsAfter w.trace.length (Server.Start E env s w).2.2.trace,
        ev.isEngineStart = false) ∧
      (Server.Start E env s w).2.2.engine = w.engine) ∧
    ((scheduled env s).grpcError = none →
      (Server.Start E env s w).1 = none ∧
      (Server.Start E env s w).2.2.trace =
        w.trace ++ bindEffects w.nextServer (listenAddress E w) ++
          [Event.goServe w.nextServer (env.Listen "tcp" (listenAddress E w)).1,
           Event.engine Call.Start] ∧
      (Server.Start E env s w).2.2.engine = (E.Start s.queryService w.engine).2) := by
  simp only [listenAddress] at h
  constructor
  · intro e he
    have he1 := (scheduled_grpcError env s (some w.nextServer)).trans he
    have ht : (Server.Start E env s w).2.2.trace =
        w.trace ++ bindEffects w.nextServer (listenAddress E w) ++
          [Event.goServe w.nextServer (env.Listen "tcp" (listenAddress E w)).1] := by
      simp [Server.Start, emit, grpcNewServer, bindEffects, listenAddress, h, he1]
    refine ⟨?_, ht, ?_, ?_⟩
    · simp [Server.Start, emit, grpcNewServer, h, he1]
    · intro ev hev
      rw [ht] at hev
      simp [effectsAfter, bindEffects] at hev
      rcases hev with rfl | rfl | rfl | rfl | rfl | rfl <;> rfl
    · simp [Server.Start, emit, grpcNewServer, h, he1]
  · intro he
    have he1 := (scheduled_grpcError env s (some w.nextServer)).trans he
    have hq := scheduled_queryService env { s with grpcServer := some w.nextServer }
    refine ⟨?_, ?_, ?_⟩
    · simp [Server.Start, emit, grpcNewServer, callEngine, h, he1]
    · simp [Server.Start, emit, grpcNewServer, callEngine, bindEffects, listenAddress, h, he1]
    · simp [Server.Start, emit, grpcNewServer, callEngine, h, he1, hq]

/-- Witness of C8: the bind succeeds; in one run the serve loop has already failed when
`Start` reads `grpcError`, in the other it has stored nothing. -/
theorem start_after_bind_witness :
    ((Sample.serveFailed.Listen "tcp" (listenAddress Sample.engine Sample.world)).2 = none ∧
      (scheduled Sample.serveFailed Sample.server).grpcError = some "listener closed" ∧
      (Server.Start Sample.engine Sample.serveFailed Sample.server Sample.world).1 =
        some "listener closed" ∧
      (Server.Start Sample.engine Sample.serveFailed Sample.server Sample.world).2.2.engine =
        Sample.world.engine) ∧
    ((Sample.portFree.Listen "tcp" (listenAddress Sample.engine Sample.world)).2 = none ∧
      (scheduled Sample.portFree Sample.server).grpcError = none ∧
      (Server.Start Sample.engine Sample.portFree Sample.server Sample.world).1 = none ∧
      (Server.Start Sample.engine Sample.portFree Sample.server Sample.world).2.2.trace =
        Sample.world.trace ++
          bindEffects Sample.world.nextServer (listenAddress Sample.engine Sample.world) ++
          [Event.goServe Sample.world.nextServer
             (Sample.portFree.Listen "tcp" (listenAddress Sample.engine Sample.world)).1,
           Event.engine Call.Start]) :=
  ⟨⟨rfl, rfl,
    ((start_after_bind Sample.engine Sample.serveFailed Sample.server Sample.world rfl).1
      "listener closed" rfl).1,
    ((start_after_bind Sample.engine Sample.serveFailed Sample.server Sample.world rfl).1
      "listener closed" rfl).2.2.2⟩,
   ⟨rfl, rfl,
    ((start_after_bind Sample.engine Sample.portFree Sample.server Sample.world rfl).2 rfl).1,
    ((start_after_bind Sample.engine Sample.portFree Sample.server Sample.world rfl).2
      rfl).2.1⟩⟩

/-- The methods `Init` and `Stop` return exactly the error of the engine call they make. -/
theorem init_stop_propagate {P : Decls} {σ : Type} (E : Engine P σ) (s : Server P)
    (w : World P σ) :
    (Server.Init E s w).1 = (E.Init s.queryService w.engine).1 ∧
    (Server.Stop E s w).1 = (E.Stop s.queryService w.engine).1 := by
  constructor
  · cases h : (E.Init s.queryService w.engine).1 <;> simp [Server.Init, callEngine, emit, h]
  · rfl

/-- C9, at the failing input: the bind succeeds, the serve loop has stored nothing, and the
engine's `Start`, which `Server.Start` calls as its last effect, reports the error
`"engine start failed"`; `Server.Start` returns no error. -/
theorem start_drops_engine_start_error :
    (Sample.startFailsEngine.Start Sample.server.queryService Sample.world.engine).1 =
      some "engine start failed" ∧
    (Server.Start Sample.startFailsEngine Sample.portFree Sample.server Sample.world).1 = none ∧
    (Server.Start Sample.startFailsEngine Sample.portFree Sample.server Sample.world).2.2.trace =
      bindEffects 0 (listenAddress Sample.startFailsEngine Sample.world) ++
        [Event.goServe 0 (listenAddress Sample.startFailsEngine Sample.world),
         Event.engine Call.Start] :=
  ⟨rfl, rfl, rfl⟩

/-- C10: `Start` creates the transport server and stores it on the handle before it
attempts the bind, so after a `Start` that fails at the bind the handle has a transport
server.  A `Stop` on that handle performs the engine's `Stop`, the cancellation of the scope
and the graceful stop of that transport server, which no effect since the beginning of the
`Start` has served.  A `Stop` on a handle that `NewServer` built and `Start` never touched
performs no graceful stop. -/
theorem stop_after_failed_bind {P : Decls} {σ : Type} (E : Engine P σ) (env : StartEnv P)
    (s : Server P) (w : World P σ) (e : P.error)
    (h : (env.Listen "tcp" (listenAddress E w)).2 = some e) :
    (Server.Start E env s w).1 = some e ∧
    (Server.Start E env s w).2.1.grpcServer = some w.nextServer ∧
    (Server.Start E env s w).2.2.trace =
      w.trace ++ [Event.log "start query service ...", Event.newGrpcServer w.nextServer,
        Event.registerQueryServiceServer w.nextServer,
        Event.log "Starting start query service Server",
        Event.listen "tcp" (listenAddress E w)] ∧
    (Server.Stop E (Server.Start E env s w).2.1 (Server.Start E env s w).2.2).2.trace =
      (Server.Start E env s w).2.2.trace ++
        [Event.engine Call.Stop, Event.cancel s.loopCancel.scope,
         Event.gracefulStop w.nextServer] ∧
    (∀ ev ∈ effectsAfter w.trace.length
        (Server.Stop E (Server.Start E env s w).2.1 (Server.Start E env s w).2.2).2.trace,
      ev.isServe = false) ∧
    (∀ (ctx : Context) (factory : P.Factory) (w0 w1 : World P σ) (fresh : Server P),
      (NewServer E ctx factory w0).1.1 = some fresh →
      ∀ ev ∈ effectsAfter w1.trace.length (Server.Stop E fresh w1).2.trace,
        ev.isGracefulStop = false) := by
  simp only [listenAddress] at h
  have hs : (Server.Start E env s w).2.1 = { s with grpcServer := some w.nextServer } := by
    simp [Server.Start, emit, grpcNewServer, h]
  have ht : (Server.Start E env s w).2.2.trace =
      w.trace ++ [Event.log "start query service ...", Event.newGrpcServer w.nextServer,
        Event.registerQueryServiceServer w.nextServer,
        Event.log "Starting start query service Server",
        Event.listen "tcp" (listenAddress E w)] := by
    simp [Server.Start, emit, grpcNewServer, listenAddress, h]
  have hstop : (Server.Stop E (Server.Start E env s w).2.1 (Server.Start E env s w).2.2).2.trace =
      (Server.Start E env s w).2.2.trace ++
        [Event.engine Call.Stop, Event.cancel s.loopCancel.scope,
         Event.gracefulStop w.nextServer] := by
    rw [hs]
    simp [Server.Stop, callEngine, CancelFunc.call, emit]
  refine ⟨?_, ?_, ht, hstop, ?_, ?_⟩
  · simp [Server.Start, emit, grpcNewServer, h]
  · rw [hs]
  · intro ev hev
    rw [hstop, ht] at hev
    simp [effectsAfter] at hev
    rcases hev with rfl | rfl | rfl | rfl | rfl | rfl | rfl | rfl <;> rfl
  · intro ctx factory w0 w1 fresh hf
    have hg : fresh.grpcServer = none := by
      dsimp only [NewServer] at hf
      split at hf
      · simp at hf
      · simp at hf
        rw [← hf]
    intro ev hev
    have hst : (Server.Stop E fresh w1).2.trace =
        w1.trace ++ [Event.engine Call.Stop, Event.cancel fresh.loopCancel.scope] := by
      simp [Server.Stop, callEngine, CancelFunc.call, emit, hg]
    rw [hst] at hev
    simp [effectsAfter] at hev
    rcases hev with rfl | rfl <;> rfl

/-- Witness of C10: the port is taken when `Start` runs on the sample handle; the later
`Stop` gracefully stops transport server 0, and a `Stop` on the handle as `NewServer` built
it stops no transport server. -/
theorem stop_after_failed_bind_witness :
    (Sample.portTaken.Listen "tcp" (listenAddress Sample.engine Sample.world)).2 =
      some "address already in use" ∧
    (Server.Start Sample.engine Sample.portTaken Sample.server Sample.world).2.1.grpcServer =
      some 0 ∧
    (Server.Stop Sample.engine
        (Server.Start Sample.engine Sample.portTaken Sample.server Sample.world).2.1
        (Server.Start Sample.engine Sample.portTaken Sample.server Sample.world).2.2).2.trace =
      (Server.Start Sample.engine Sample.portTaken Sample.server Sample.world).2.2.trace ++
        [Event.engine Call.Stop, Event.cancel 0, Event.gracefulStop 0] ∧
    (NewServer Sample.engine (Context.base 0) () Sample.world).1.1 = some Sample.server ∧
    (∀ ev ∈ effectsAfter Sample.world.trace.length
        (Server.Stop Sample.engine Sample.server Sample.world).2.trace,
      ev.isGracefulStop = false) :=
  ⟨rfl,
   (stop_after_failed_bind Sample.engine Sample.portTaken Sample.server Sample.world
      "address already in use" rfl).2.1,
   (stop_after_failed_bind Sample.engine Sample.portTaken Sample.server Sample.world
      "address already in use" rfl).2.2.2.1,
   rfl,
   (stop_after_failed_bind Sample.engine Sample.portTaken Sample.server Sample.world
      "address already in use" rfl).2.2.2.2.2 (Context.base 0) () Sample.world Sample.world
      Sample.server rfl⟩

end grpcqueryservice
